import Mathlib

/-!
Shallow embedding of `src/function_app.py`, a set of four HTTP-triggered
handlers (processComplaint, saveResponse, GetRoles, GetSavedResponses)
plus the module-level configuration validation.  External services
(completion API, SQL database, blob store) are modelled as explicit
outcome parameters; side effects are recorded in explicit lists.
-/

namespace ComplaintApi

/-! ### JSON values and Python-style dynamic operations -/

/-- A JSON value, as produced by `req.get_json()`. -/
inductive Json where
  | null : Json
  | bool (b : Bool) : Json
  | num (n : Int) : Json
  | str (s : String) : Json
  | arr (xs : List Json) : Json
  | obj (kvs : List (String × Json)) : Json

/-- Python runtime errors that the handlers do not catch. -/
inductive PyErr where
  | typeError : PyErr
  | attributeError : PyErr
deriving DecidableEq

/-- Python truthiness of a JSON value (`if not complaint`, `and claim.get("val")`). -/
def truthy : Json → Bool
  | .null => false
  | .bool b => b
  | .num n => n != 0
  | .str s => s != ""
  | .arr xs => !xs.isEmpty
  | .obj kvs => !kvs.isEmpty

/-- Python truthiness of an optional string (absent or empty is falsy). -/
def truthyOptStr : Option String → Bool
  | none => false
  | some s => s != ""

/-- Python `x.get(key, default)`: only defined on dicts, raises
AttributeError otherwise. -/
def dictGetD (j : Json) (key : String) (dflt : Json) : Except PyErr Json :=
  match j with
  | .obj kvs => .ok ((kvs.lookup key).getD dflt)
  | _ => .error .attributeError

/-- Python iteration `for x in y`: lists yield elements, strings yield
one-character strings, dicts yield their keys, everything else raises
TypeError. -/
def pyIter : Json → Except PyErr (List Json)
  | .arr xs => .ok xs
  | .str s => .ok (s.data.map fun c => .str (String.mk [c]))
  | .obj kvs => .ok (kvs.map fun kv => .str kv.1)
  | _ => .error .typeError

/-- Python `j == s` for a string literal `s`: true only for an equal string. -/
def jEqStr (j : Json) (s : String) : Bool :=
  match j with
  | .str t => t == s
  | _ => false

/-! ### HTTP responses -/

/-- A response body: plain text or a JSON document (`json.dumps`). -/
inductive RespBody where
  | text (s : String) : RespBody
  | jsonBody (j : Json) : RespBody

/-- The observable parts of `func.HttpResponse`. -/
structure HttpResponse where
  body : RespBody
  status : Nat
  headers : List (String × String)

/-- The headers dict passed to every non-405 response in the source. -/
def corsHeaders : List (String × String) := [("Access-Control-Allow-Origin", "*")]

/-- Whether a response carries the permissive cross-origin header. -/
def hasCors (r : HttpResponse) : Bool :=
  r.headers.contains ("Access-Control-Allow-Origin", "*")

/-- A JSON error response with the CORS header, as built at every error
return site of the handlers. -/
def jsonError (msg : String) (status : Nat) : HttpResponse :=
  { body := .jsonBody (.obj [("error", .str msg)]), status := status,
    headers := corsHeaders }

/-! ### Module-level configuration validation (lines 14–36) -/

/-- The environment variables read at module load (`os.getenv`). -/
structure Config where
  AZURE_OPENAI_ENDPOINT : Option String
  AZURE_OPENAI_API_KEY : Option String
  AZURE_OPENAI_DEPLOYMENT : Option String
  AZURE_OPENAI_API_VERSION : Option String
  SQL_CONNECTION_STRING : Option String
  STORAGE_CONNECTION_STRING : Option String
  STORAGE_CONTAINER_NAME : Option String

/-- The module-level validation: `if not all([...]) ... raise ValueError`
for the OpenAI triple, then the SQL connection string, then the storage
connection string.  `AZURE_OPENAI_API_VERSION` and `STORAGE_CONTAINER_NAME`
are read but not checked. -/
def startupCheck (c : Config) : Except String Unit :=
  if !(truthyOptStr c.AZURE_OPENAI_ENDPOINT && truthyOptStr c.AZURE_OPENAI_API_KEY
        && truthyOptStr c.AZURE_OPENAI_DEPLOYMENT) then
    .error "Azure OpenAI configuration is incomplete."
  else if !truthyOptStr c.SQL_CONNECTION_STRING then
    .error "SQL configuration is incomplete."
  else if !truthyOptStr c.STORAGE_CONNECTION_STRING then
    .error "Storage configuration is incomplete."
  else
    .ok ()

/-! ### processComplaint (lines 46–137) -/

/-- The two upstream chat-completion calls made by `process_complaint`. -/
inductive Call where
  | draft : Call
  | classify : Call
deriving DecidableEq

/-- Outcome of one `client.chat.completions.create` call: the returned
message text, an `OpenAIError`, or any other exception. -/
inductive CompletionOutcome where
  | ok (text : String) : CompletionOutcome
  | openAIError : CompletionOutcome
  | failure : CompletionOutcome

/-- The parsed request body of processComplaint: `req.get_json()` raising
ValueError, or a JSON object whose "complaint" and "findings" entries are
absent or strings. -/
inductive PCBody where
  | malformed : PCBody
  | parsed (complaint : Option String) (findings : Option String) : PCBody

/-- Python `str.strip()`: drop leading and trailing whitespace. -/
def pyStrip (s : String) : String :=
  String.mk (((s.data.dropWhile Char.isWhitespace).reverse.dropWhile
    Char.isWhitespace).reverse)

/-- The closed category list (line 103). -/
def validCategories : List String := ["Credit Cards", "Channels", "Staff", "Banking & Savings"]

/-- Lines 102–105: strip the classification text and fall back to
"Banking & Savings" when it is not one of the four valid categories. -/
def normalizeCategory (raw : String) : String :=
  let c := pyStrip raw
  if validCategories.contains c then c else "Banking & Savings"

/-- The `process_complaint` handler.  Returns the HTTP response together
with the list of upstream completion calls that were issued. -/
def process_complaint (method : String) (body : PCBody)
    (draftOutcome classifyOutcome : CompletionOutcome) :
    HttpResponse × List Call :=
  if method != "POST" then
    ({ body := .text "Method not allowed. Use POST.", status := 405, headers := [] }, [])
  else
    match body with
    | .malformed => (jsonError "Invalid JSON payload." 400, [])
    | .parsed complaint _ =>
      if !truthyOptStr complaint then
        (jsonError "Complaint text is required." 400, [])
      else
        match draftOutcome with
        | .openAIError =>
          (jsonError "Failed to generate response due to OpenAI service issue." 500, [.draft])
        | .failure =>
          (jsonError "An error occurred while processing your request." 500, [.draft])
        | .ok draftText =>
          match classifyOutcome with
          | .openAIError =>
            (jsonError "Failed to generate response due to OpenAI service issue." 500,
             [.draft, .classify])
          | .failure =>
            (jsonError "An error occurred while processing your request." 500,
             [.draft, .classify])
          | .ok categoryText =>
            let generated := pyStrip draftText
            let category := normalizeCategory categoryText
            ({ body := .jsonBody (.obj [("category", .str category),
                                        ("response", .str generated)]),
               status := 200, headers := corsHeaders },
             [.draft, .classify])

/-! ### saveResponse (lines 139–227) -/

/-- An uploaded file (`req.files.get("document")`). -/
structure FileUpload where
  filename : String
  content : String

/-- The multipart form fields of saveResponse. -/
structure SaveForm where
  complaint : Option String
  originalResponse : Option String
  editedResponse : Option String
  originalCategory : Option String
  editedCategory : Option String
  document : Option FileUpload

/-- The request body of saveResponse: malformed form data (ValueError) or
the parsed form. -/
inductive SRBody where
  | malformed : SRBody
  | form (f : SaveForm) : SRBody

/-- Line 164: `(original_category == edited_category) if original_category
is not None and edited_category is not None else False`. -/
def is_correct_category (oc ec : Option String) : Bool :=
  match oc, ec with
  | some a, some b => a == b
  | _, _ => false

/-- The row inserted into ComplaintResponses (lines 179–192). -/
structure RowInsert where
  ResponseId : String
  Complaint : String
  OriginalResponse : String
  EditedResponse : String
  OriginalCategory : String
  EditedCategory : String
  DocumentUrl : String
  SavedAt : String
  IsCorrectCategory : Bool

/-- External side effects performed by saveResponse. -/
inductive Effect where
  | blobUpload (blobName : String) (content : String) : Effect
  | dbInsert (row : RowInsert) : Effect

/-- Outcome of the blob upload. -/
inductive BlobOutcome where
  | ok : BlobOutcome
  | failure : BlobOutcome

/-- Outcome of the database insert: success, `pyodbc.Error`, or any other
exception. -/
inductive DbOutcome where
  | ok : DbOutcome
  | dbError : DbOutcome
  | failure : DbOutcome

/-- The `save_response` handler.  `responseId` stands for the fresh
`uuid.uuid4()` and `now` for `datetime.now()`; `blobUrlOf` maps a blob name
to `blob_client.url`.  Returns the HTTP response together with the external
effects that completed. -/
def save_response (method : String) (body : SRBody) (responseId : String)
    (now : String) (blobUrlOf : String → String)
    (blob : BlobOutcome) (db : DbOutcome) : HttpResponse × List Effect :=
  if method != "POST" then
    ({ body := .text "Method not allowed. Use POST.", status := 405, headers := [] }, [])
  else
    match body with
    | .malformed => (jsonError "Invalid form data." 400, [])
    | .form f =>
      if !(truthyOptStr f.originalResponse && truthyOptStr f.editedResponse
            && truthyOptStr f.originalCategory && truthyOptStr f.editedCategory) then
        (jsonError "All response and category fields are required." 400, [])
      else
        let isCorrect := is_correct_category f.originalCategory f.editedCategory
        let uploadStep : Except Unit (String × List Effect) :=
          match f.document with
          | none => .ok ("", [])
          | some d =>
            if d.filename == "" then .ok ("", [])
            else
              match blob with
              | .failure => .error ()
              | .ok =>
                let blobName := responseId ++ "/" ++ d.filename
                .ok (blobUrlOf blobName, [.blobUpload blobName d.content])
        match uploadStep with
        | .error _ => (jsonError "An error occurred while saving the response." 500, [])
        | .ok (documentUrl, effects) =>
          match db with
          | .failure =>
            (jsonError "An error occurred while saving the response." 500, effects)
          | .dbError =>
            (jsonError "Failed to save response due to database issue." 500, effects)
          | .ok =>
            let row : RowInsert :=
              { ResponseId := responseId
                Complaint := f.complaint.getD "Unknown"
                OriginalResponse := f.originalResponse.getD ""
                EditedResponse := f.editedResponse.getD ""
                OriginalCategory := f.originalCategory.getD ""
                EditedCategory := f.editedCategory.getD ""
                DocumentUrl := documentUrl
                SavedAt := now
                IsCorrectCategory := isCorrect }
            ({ body := .jsonBody (.obj
                 [("status", .str "Response and document saved successfully"),
                  ("responseId", .str responseId)]),
               status := 200, headers := corsHeaders },
             effects ++ [.dbInsert row])

/-! ### GetRoles (lines 229–275) -/

/-- The well-known URI claim-type for roles (line 249). -/
def roleClaimTypeUri : String :=
  "http://schemas.microsoft.com/ws/2008/06/identity/claims/role"

/-- One step of the list comprehension in `get_roles_claims` (line 249):
evaluate the filter condition on one claim, collecting `claim.get("val")`
when its `typ` matches and its `val` is truthy.  Each dynamic attribute
access may raise. -/
def claimStep (acc : List Json) (claim : Json) : Except PyErr (List Json) := do
  let typ ← dictGetD claim "typ" .null
  if jEqStr typ "roles" || jEqStr typ roleClaimTypeUri then
    let v ← dictGetD claim "val" .null
    if truthy v then pure (acc ++ [v]) else pure acc
  else pure acc

/-- The list comprehension of `get_roles_claims` (lines 245–250). -/
def getRolesClaims (userClaims : Json) : Except PyErr (List Json) := do
  let items ← pyIter userClaims
  items.foldlM claimStep []

/-- The role-mapping loop body (lines 256–268). -/
def mapClaimRole (roles : List String) (role : Json) : List String :=
  if jEqStr role "complaintsysadmin" then roles ++ ["complaintsysadmin"]
  else if jEqStr role "complaintsysuser" then roles ++ ["complaintsysuser"]
  else if jEqStr role "guest" then roles ++ ["temp_guest"]
  else roles

/-- The 200 response of GetRoles with the given roles list. -/
def rolesResponse (roles : List String) : HttpResponse :=
  { body := .jsonBody (.obj [("roles", .arr (roles.map Json.str))]),
    status := 200, headers := corsHeaders }

/-- The `get_roles` handler.  `body` is `none` when `req.get_json()` raised
ValueError (absent or malformed body, caught at lines 240–242), otherwise
the parsed JSON document.  Uncaught Python errors surface as `.error`. -/
def get_roles (method : String) (body : Option Json) :
    Except PyErr HttpResponse := do
  let reqBody : Json := if method == "POST" then body.getD (.obj []) else .obj []
  let userClaims ← dictGetD reqBody "claims" (.arr [])
  let claimRoles ← getRolesClaims userClaims
  let roles := claimRoles.foldl mapClaimRole []
  pure (rolesResponse roles)

/-! ### GetSavedResponses (lines 279–330) -/

/-- A row read back from ComplaintResponses; SavedAt is already rendered as
its ISO string. -/
structure RowRead where
  Id : Int
  ResponseId : String
  Complaint : String
  OriginalResponse : String
  EditedResponse : String
  OriginalCategory : String
  EditedCategory : String
  DocumentUrl : String
  SavedAt : String

/-- Outcome of the database read. -/
inductive DbReadOutcome where
  | ok (rows : List RowRead) : DbReadOutcome
  | dbError : DbReadOutcome
  | failure : DbReadOutcome

/-- A row as the field-name-to-value dictionary returned to the client. -/
def rowReadJson (r : RowRead) : Json :=
  .obj [("Id", .num r.Id), ("ResponseId", .str r.ResponseId),
        ("Complaint", .str r.Complaint), ("OriginalResponse", .str r.OriginalResponse),
        ("EditedResponse", .str r.EditedResponse),
        ("OriginalCategory", .str r.OriginalCategory),
        ("EditedCategory", .str r.EditedCategory),
        ("DocumentUrl", .str r.DocumentUrl), ("SavedAt", .str r.SavedAt)]

/-- The `get_saved_responses` handler. -/
def get_saved_responses (method : String) (db : DbReadOutcome) : HttpResponse :=
  if method != "GET" then
    { body := .text "Method not allowed. Use GET.", status := 405, headers := [] }
  else
    match db with
    | .dbError => jsonError "Failed to retrieve saved responses due to database issue." 500
    | .failure => jsonError "An error occurred while retrieving saved responses." 500
    | .ok rows =>
      { body := .jsonBody (.obj [("responses", .arr (rows.map rowReadJson))]),
        status := 200, headers := corsHeaders }

/-- A configuration with every required parameter present except the blob
container name. -/
def cfgNoContainer : Config :=
  { AZURE_OPENAI_ENDPOINT := some "https://example.openai.azure.com"
    AZURE_OPENAI_API_KEY := some "key"
    AZURE_OPENAI_DEPLOYMENT := some "gpt"
    AZURE_OPENAI_API_VERSION := some "2024-02-01"
    SQL_CONNECTION_STRING := some "Driver=...;Server=..."
    STORAGE_CONNECTION_STRING := some "DefaultEndpointsProtocol=..."
    STORAGE_CONTAINER_NAME := none }

/-! ### Specification-side definitions for refinement claims -/

/-- A claim as the spec describes it for GetRoles: a `typ` and a `val`. -/
def encodeClaim (c : String × String) : Json :=
  .obj [("typ", .str c.1), ("val", .str c.2)]

/-- The fixed role lookup as the spec words it: admin and user map to
themselves, guest maps to "temp_guest", everything else is dropped. -/
def roleLookup (s : String) : Option String :=
  if s == "complaintsysadmin" then some "complaintsysadmin"
  else if s == "complaintsysuser" then some "complaintsysuser"
  else if s == "guest" then some "temp_guest"
  else none

/-- The roles pipeline as the spec words it: keep claims whose typ is
"roles" or the well-known URI and whose val is non-empty, in encounter
order, then map each value through the fixed lookup. -/
def rolesSpec (claims : List (String × String)) : List String :=
  ((claims.filter fun c =>
      (c.1 == "roles" || c.1 == roleClaimTypeUri) && c.2 != "").map Prod.snd).filterMap
    roleLookup

/-! ### Helper lemmas -/

lemma except_bind_ok {ε α β : Type} (x : α) (f : α → Except ε β) :
    (Except.ok x : Except ε α) >>= f = f x := rfl

lemma except_bind_err {ε α β : Type} (e : ε) (f : α → Except ε β) :
    (Except.error e : Except ε α) >>= f = .error e := rfl

lemma except_pure {ε α : Type} (x : α) : (pure x : Except ε α) = .ok x := rfl

lemma except_map_ok {ε α β : Type} (f : α → β) (x : α) :
    (f <$> (Except.ok x : Except ε α) : Except ε β) = .ok (f x) := rfl

lemma claimStep_encode (acc : List Json) (c : String × String) :
    claimStep acc (encodeClaim c) =
      .ok (if (c.1 == "roles" || c.1 == roleClaimTypeUri) && c.2 != ""
           then acc ++ [Json.str c.2] else acc) := by
  cases ha : (c.1 == "roles") <;>
    cases hb : (c.1 == roleClaimTypeUri) <;>
      cases h2 : (c.2 != "") <;>
        simp [claimStep, encodeClaim, dictGetD, List.lookup, jEqStr, truthy,
          except_bind_ok, except_pure, ha, hb, h2]

lemma foldlM_claimStep (cs : List (String × String)) (acc : List Json) :
    (cs.map encodeClaim).foldlM claimStep acc =
      .ok (acc ++ (cs.filter fun c =>
        (c.1 == "roles" || c.1 == roleClaimTypeUri) && c.2 != "").map
          fun c => Json.str c.2) := by
  induction cs generalizing acc with
  | nil => simp [List.foldlM, except_pure]
  | cons c cs ih =>
    simp only [List.map_cons, List.foldlM, claimStep_encode, List.filter_cons]
    cases h : ((c.1 == "roles" || c.1 == roleClaimTypeUri) && c.2 != "") <;>
      simp [h, except_bind_ok, ih]

lemma mapClaimRole_str (acc : List String) (s : String) :
    mapClaimRole acc (Json.str s) = acc ++ (roleLookup s).toList := by
  unfold mapClaimRole roleLookup jEqStr
  by_cases h1 : (s == "complaintsysadmin") <;>
    by_cases h2 : (s == "complaintsysuser") <;>
      by_cases h3 : (s == "guest") <;>
        simp [h1, h2, h3]

lemma foldl_mapClaimRole (ss : List String) (acc : List String) :
    (ss.map Json.str).foldl mapClaimRole acc = acc ++ ss.filterMap roleLookup := by
  induction ss generalizing acc with
  | nil => simp
  | cons s ss ih =>
    simp only [List.map_cons, List.foldl_cons, mapClaimRole_str, List.filterMap_cons]
    cases h : roleLookup s <;> simp [h, ih]

/-! ### Helper lemmas for GetRoles success responses -/

lemma rolesBind_ok_cors (rb : Json) (r : HttpResponse)
    (hok : ((dictGetD rb "claims" (Json.arr [])) >>= fun userClaims =>
      (getRolesClaims userClaims) >>= fun claimRoles =>
      pure (rolesResponse (List.foldl mapClaimRole [] claimRoles))) = Except.ok r) :
    r.headers = corsHeaders := by
  cases h1 : dictGetD rb "claims" (.arr []) with
  | error e => rw [h1, except_bind_err] at hok; exact absurd hok (by simp)
  | ok uc =>
    rw [h1, except_bind_ok] at hok
    cases h2 : getRolesClaims uc with
    | error e => rw [h2, except_bind_err] at hok; exact absurd hok (by simp)
    | ok vs =>
      rw [h2, except_bind_ok, except_pure] at hok
      cases hok
      rfl

lemma get_roles_ok_cors (m : String) (jb : Option Json) (r : HttpResponse)
    (hok : get_roles m jb = .ok r) : r.headers = corsHeaders :=
  rolesBind_ok_cors (if (m == "POST") = true then jb.getD (Json.obj []) else Json.obj []) r hok

/-! ### Claim C1 -/

/-- Claim C1 counterexample: with the blob container name absent from the
environment and everything else present, module initialization raises no
error, so startup succeeds; the claim says it must fail. -/
theorem claim1_counterexample :
    cfgNoContainer.STORAGE_CONTAINER_NAME = none ∧
      startupCheck cfgNoContainer = .ok () := ⟨rfl, rfl⟩

/-- Claim C1 (amended): module initialization succeeds exactly when the
completion endpoint, key, deployment name, database connection string and
blob-store connection string are all present and non-empty; the API version
and the blob container name are read but never validated at startup. -/
theorem claim1_startup (c : Config) :
    startupCheck c = .ok () ↔
      (truthyOptStr c.AZURE_OPENAI_ENDPOINT = true ∧
       truthyOptStr c.AZURE_OPENAI_API_KEY = true ∧
       truthyOptStr c.AZURE_OPENAI_DEPLOYMENT = true ∧
       truthyOptStr c.SQL_CONNECTION_STRING = true ∧
       truthyOptStr c.STORAGE_CONNECTION_STRING = true) := by
  cases h1 : truthyOptStr c.AZURE_OPENAI_ENDPOINT <;>
    cases h2 : truthyOptStr c.AZURE_OPENAI_API_KEY <;>
      cases h3 : truthyOptStr c.AZURE_OPENAI_DEPLOYMENT <;>
        cases h4 : truthyOptStr c.SQL_CONNECTION_STRING <;>
          cases h5 : truthyOptStr c.STORAGE_CONNECTION_STRING <;>
            simp [startupCheck, h1, h2, h3, h4, h5]

/-! ### Claim C2 -/

/-- Claim C2: in processComplaint, the classification text is stripped; a
stripped text that is one of the four labels is returned as the category
unchanged, any other stripped text is silently replaced by
"Banking & Savings", and the request still succeeds either way. -/
theorem claim2_category_fallback (c dt ct : String) (h : c ≠ "") :
    (process_complaint "POST" (.parsed (some c) none) (.ok dt) (.ok ct)).1.status = 200 ∧
    (validCategories.contains (pyStrip ct) = true →
      (process_complaint "POST" (.parsed (some c) none) (.ok dt) (.ok ct)).1.body =
        .jsonBody (.obj [("category", .str (pyStrip ct)),
                         ("response", .str (pyStrip dt))])) ∧
    (validCategories.contains (pyStrip ct) = false →
      (process_complaint "POST" (.parsed (some c) none) (.ok dt) (.ok ct)).1.body =
        .jsonBody (.obj [("category", .str "Banking & Savings"),
                         ("response", .str (pyStrip dt))])) := by
  have hc : truthyOptStr (some c) = true := by
    simp [truthyOptStr, h]
  refine ⟨?_, ?_, ?_⟩ <;>
    simp [process_complaint, hc, normalizeCategory] <;>
      intro hv <;> simp [hv]

/-- Claim C2 witness: a stripped label inside the set is kept, at the
concrete classification text " Staff ". -/
theorem claim2_witness :
    (process_complaint "POST" (.parsed (some "Late fees") none)
        (.ok " A draft. ") (.ok " Staff ")).1.body =
      .jsonBody (.obj [("category", .str (pyStrip " Staff ")),
                       ("response", .str (pyStrip " A draft. "))]) :=
  (claim2_category_fallback "Late fees" " A draft. " " Staff "
    (by decide)).2.1 (by decide)

/-! ### Claim C3 -/

/-- Claim C3 counterexample: a non-empty complaint whose drafting call
returns the empty string yields a success (200) result whose response
field is empty, against the claimed non-emptiness. -/
theorem claim3_counterexample :
    (process_complaint "POST" (.parsed (some "Late fee charged twice") none)
        (.ok "") (.ok "Staff")).1.status = 200 ∧
    (process_complaint "POST" (.parsed (some "Late fee charged twice") none)
        (.ok "") (.ok "Staff")).1.body =
      .jsonBody (.obj [("category", .str "Staff"), ("response", .str "")]) :=
  ⟨rfl, rfl⟩

/-- Claim C3 (amended): for every non-empty complaint and every pair of
upstream texts, the success result carries status 200, a response field
equal to the stripped drafting text (non-empty except when the drafting
text strips to empty) and a category field drawn from the closed
four-label set. -/
theorem claim3_success_shape (c dt ct : String) (f : Option String) (h : c ≠ "") :
    (process_complaint "POST" (.parsed (some c) f) (.ok dt) (.ok ct)).1.status = 200 ∧
    (process_complaint "POST" (.parsed (some c) f) (.ok dt) (.ok ct)).1.body =
      .jsonBody (.obj [("category", .str (normalizeCategory ct)),
                       ("response", .str (pyStrip dt))]) ∧
    validCategories.contains (normalizeCategory ct) = true := by
  have hc : truthyOptStr (some c) = true := by
    simp [truthyOptStr, h]
  refine ⟨?_, ?_, ?_⟩
  · simp [process_complaint, hc]
  · simp [process_complaint, hc]
  · have hn : normalizeCategory ct =
        if validCategories.contains (pyStrip ct) then pyStrip ct
        else "Banking & Savings" := rfl
    rw [hn]
    cases hv : validCategories.contains (pyStrip ct)
    · rw [if_neg (by simp [hv])]; decide
    · rw [if_pos (by simp [hv])]; exact hv

/-- Claim C3 witness: the amended property at a concrete request whose
classification text lies outside the label set. -/
theorem claim3_witness :
    (process_complaint "POST" (.parsed (some "Card declined") (some "notes"))
        (.ok "We are sorry.") (.ok "Mortgages")).1.status = 200 ∧
    (process_complaint "POST" (.parsed (some "Card declined") (some "notes"))
        (.ok "We are sorry.") (.ok "Mortgages")).1.body =
      .jsonBody (.obj [("category", .str (normalizeCategory "Mortgages")),
                       ("response", .str (pyStrip "We are sorry."))]) ∧
    validCategories.contains (normalizeCategory "Mortgages") = true :=
  claim3_success_shape "Card declined" "We are sorry." "Mortgages" (some "notes")
    (by decide)

/-! ### Claim C4 -/

/-- Claim C4 counterexample: a well-formed JSON object body whose "claims"
entry is the number 5 (wrong shape) makes GetRoles raise an uncaught
TypeError instead of returning the success result. -/
theorem claim4_counterexample :
    get_roles "POST" (some (Json.obj [("claims", Json.num 5)])) =
      .error PyErr.typeError := rfl

/-- Claim C4 (amended): GetRoles returns the success result with an empty
roles list for an absent or malformed body and for a JSON object body
lacking a claims key; wrong-shape bodies whose claims entry is not an
iterable of dicts can instead raise an uncaught error. -/
theorem claim4_roles_tolerant (method : String) (kvs : List (String × Json))
    (h : kvs.lookup "claims" = none) :
    get_roles method none = .ok (rolesResponse []) ∧
    get_roles method (some (Json.obj kvs)) = .ok (rolesResponse []) := by
  constructor
  · cases hm : (method == "POST") <;>
      simp [get_roles, hm, dictGetD, getRolesClaims, pyIter, List.foldlM,
        except_bind_ok, except_pure, List.lookup]
  · cases hm : (method == "POST") <;>
      simp [get_roles, hm, dictGetD, getRolesClaims, pyIter, List.foldlM,
        except_bind_ok, except_pure, List.lookup, h]

/-- Claim C4 witness: the amended tolerance at a POST request whose JSON
object body has no claims key. -/
theorem claim4_witness :
    get_roles "POST" none = .ok (rolesResponse []) ∧
    get_roles "POST" (some (Json.obj [("other", Json.num 1)])) =
      .ok (rolesResponse []) :=
  claim4_roles_tolerant "POST" [("other", Json.num 1)] rfl

/-! ### Claim C5 -/

theorem claim5_roles_pipeline (claims : List (String × String)) :
    get_roles "POST" (some (Json.obj [("claims", Json.arr (claims.map encodeClaim))])) =
      .ok (rolesResponse (rolesSpec claims)) := by
  have h1 : getRolesClaims (Json.arr (claims.map encodeClaim)) =
      .ok ((claims.filter fun c =>
        (c.1 == "roles" || c.1 == roleClaimTypeUri) && c.2 != "").map
          fun c => Json.str c.2) := by
    unfold getRolesClaims
    simp [pyIter, except_bind_ok, foldlM_claimStep]
  have h2 : ((claims.filter fun c =>
        (c.1 == "roles" || c.1 == roleClaimTypeUri) && c.2 != "").map
          fun c => Json.str c.2) =
      ((claims.filter fun c =>
        (c.1 == "roles" || c.1 == roleClaimTypeUri) && c.2 != "").map Prod.snd).map
          Json.str :=
    (List.map_map Json.str Prod.snd _).symm
  unfold get_roles
  simp only [except_bind_ok]
  rw [show dictGetD (if ("POST" == "POST") = true then
      (some (Json.obj [("claims", Json.arr (claims.map encodeClaim))])).getD (.obj [])
      else .obj []) "claims" (.arr []) =
    .ok (Json.arr (claims.map encodeClaim)) from rfl]
  rw [except_bind_ok, h1, except_bind_ok, h2, foldl_mapClaimRole]
  simp [rolesSpec, except_pure]

/-! ### Claim C6 -/

/-- Claim C6: saving with all four required fields present and no
attachment persists exactly one row whose DocumentUrl is the empty string
and whose IsCorrectCategory equals (originalCategory == editedCategory);
the is_correct_category expression is false whenever either category is
absent and depends on nothing but the two category fields. -/
theorem claim6_save_row (compl : Option String) (orr er oc ec rid now : String)
    (urlOf : String → String) (blob : BlobOutcome)
    (h1 : orr ≠ "") (h2 : er ≠ "") (h3 : oc ≠ "") (h4 : ec ≠ "") :
    (save_response "POST" (.form
        { complaint := compl, originalResponse := some orr,
          editedResponse := some er, originalCategory := some oc,
          editedCategory := some ec, document := none }) rid now urlOf blob .ok).2 =
      [Effect.dbInsert
        { ResponseId := rid, Complaint := compl.getD "Unknown",
          OriginalResponse := orr, EditedResponse := er,
          OriginalCategory := oc, EditedCategory := ec, DocumentUrl := "",
          SavedAt := now, IsCorrectCategory := oc == ec }] ∧
    (∀ a b : Option String, a = none ∨ b = none →
      is_correct_category a b = false) := by
  constructor
  · simp [save_response, truthyOptStr, h1, h2, h3, h4, is_correct_category]
  · rintro a b (rfl | rfl)
    · simp [is_correct_category]
    · cases a <;> simp [is_correct_category]

/-- Claim C6 witness: the property at a concrete save request with
matching categories and no attachment. -/
theorem claim6_witness :
    (save_response "POST" (.form
        { complaint := some "Slow branch service",
          originalResponse := some "orig", editedResponse := some "edited",
          originalCategory := some "Staff", editedCategory := some "Staff",
          document := none }) "id-1" "2026-10-12T00:00:00" (fun n => n)
        BlobOutcome.ok .ok).2 =
      [Effect.dbInsert
        { ResponseId := "id-1", Complaint := (some "Slow branch service").getD "Unknown",
          OriginalResponse := "orig", EditedResponse := "edited",
          OriginalCategory := "Staff", EditedCategory := "Staff", DocumentUrl := "",
          SavedAt := "2026-10-12T00:00:00",
          IsCorrectCategory := ("Staff" == "Staff") }] ∧
    (∀ a b : Option String, a = none ∨ b = none →
      is_correct_category a b = false) :=
  claim6_save_row (some "Slow branch service") "orig" "edited" "Staff" "Staff"
    "id-1" "2026-10-12T00:00:00" (fun n => n) BlobOutcome.ok
    (by decide) (by decide) (by decide) (by decide)

/-! ### Claim C7 -/

/-- Claim C7: a processComplaint request whose complaint field is missing
or empty returns the 400 validation error and issues neither upstream
completion call. -/
theorem claim7_empty_complaint (complaint findings : Option String)
    (d c : CompletionOutcome) (h : complaint = none ∨ complaint = some "") :
    (process_complaint "POST" (.parsed complaint findings) d c).1 =
      jsonError "Complaint text is required." 400 ∧
    (process_complaint "POST" (.parsed complaint findings) d c).2 = [] := by
  rcases h with h | h <;> subst h <;> exact ⟨rfl, rfl⟩

/-- Claim C7 witness: the property at a concrete request with an empty
complaint field. -/
theorem claim7_witness :
    (process_complaint "POST" (.parsed (some "") none)
        CompletionOutcome.failure CompletionOutcome.failure).1 =
      jsonError "Complaint text is required." 400 ∧
    (process_complaint "POST" (.parsed (some "") none)
        CompletionOutcome.failure CompletionOutcome.failure).2 = [] :=
  claim7_empty_complaint (some "") none .failure .failure (Or.inr rfl)

/-! ### Claim C8 -/

/-- Claim C8: a save request missing any of the four required text fields
(absent or empty) returns the 400 validation error and performs no blob
upload and no database insert. -/
theorem claim8_validation_no_effects (f : SaveForm) (rid now : String)
    (urlOf : String → String) (blob : BlobOutcome) (db : DbOutcome)
    (h : truthyOptStr f.originalResponse = false ∨
         truthyOptStr f.editedResponse = false ∨
         truthyOptStr f.originalCategory = false ∨
         truthyOptStr f.editedCategory = false) :
    (save_response "POST" (.form f) rid now urlOf blob db).1 =
      jsonError "All response and category fields are required." 400 ∧
    (save_response "POST" (.form f) rid now urlOf blob db).2 = [] := by
  have hall : (truthyOptStr f.originalResponse && truthyOptStr f.editedResponse
      && truthyOptStr f.originalCategory && truthyOptStr f.editedCategory) = false := by
    rcases h with h | h | h | h <;> simp [h]
  constructor <;> simp [save_response, hall]

/-- Claim C8 witness: the property at a concrete save request whose
editedCategory field is empty. -/
theorem claim8_witness :
    (save_response "POST" (.form
        { complaint := none, originalResponse := some "orig",
          editedResponse := some "edited", originalCategory := some "Staff",
          editedCategory := some "", document := none }) "id-2" "now"
        (fun n => n) BlobOutcome.ok DbOutcome.ok).1 =
      jsonError "All response and category fields are required." 400 ∧
    (save_response "POST" (.form
        { complaint := none, originalResponse := some "orig",
          editedResponse := some "edited", originalCategory := some "Staff",
          editedCategory := some "", document := none }) "id-2" "now"
        (fun n => n) BlobOutcome.ok DbOutcome.ok).2 = [] :=
  claim8_validation_no_effects
    { complaint := none, originalResponse := some "orig",
      editedResponse := some "edited", originalCategory := some "Staff",
      editedCategory := some "", document := none } "id-2" "now"
    (fun n => n) BlobOutcome.ok DbOutcome.ok (by decide)

/-! ### Claim C9 -/

/-- Claim C9 counterexample: the method-not-allowed response of
processComplaint is built with no headers at all, so it does not carry
the permissive cross-origin header. -/
theorem claim9_counterexample :
    (process_complaint "GET" PCBody.malformed CompletionOutcome.failure
        CompletionOutcome.failure).1.status = 405 ∧
    (process_complaint "GET" PCBody.malformed CompletionOutcome.failure
        CompletionOutcome.failure).1.headers = [] ∧
    hasCors (process_complaint "GET" PCBody.malformed CompletionOutcome.failure
        CompletionOutcome.failure).1 = false :=
  ⟨rfl, rfl, rfl⟩

/-- Claim C9 (amended): every response the four handlers produce on their
allowed methods carries the permissive cross-origin header; only the
method-not-allowed (405) responses, which are built without headers, lack
it. -/
theorem claim9_cors (pcBody : PCBody) (d c : CompletionOutcome)
    (srBody : SRBody) (rid now : String) (urlOf : String → String)
    (blob : BlobOutcome) (db : DbOutcome) (m : String) (jb : Option Json)
    (resp : HttpResponse) (dbr : DbReadOutcome) :
    hasCors (process_complaint "POST" pcBody d c).1 = true ∧
    hasCors (save_response "POST" srBody rid now urlOf blob db).1 = true ∧
    (get_roles m jb = .ok resp → hasCors resp = true) ∧
    hasCors (get_saved_responses "GET" dbr) = true := by
  refine ⟨?_, ?_, ?_, ?_⟩
  · cases pcBody with
    | malformed => rfl
    | parsed complaint findings =>
      cases hc : truthyOptStr complaint
      · simp [process_complaint, hc, hasCors, jsonError, corsHeaders]
      · cases d <;> cases c <;>
          simp [process_complaint, hc, hasCors, jsonError, corsHeaders]
  · cases srBody with
    | malformed => rfl
    | form f =>
      cases hall : (truthyOptStr f.originalResponse && truthyOptStr f.editedResponse
          && truthyOptStr f.originalCategory && truthyOptStr f.editedCategory)
      · simp [save_response, hall, hasCors, jsonError, corsHeaders]
      · cases hd : f.document with
        | none =>
          cases db <;>
            simp [save_response, hall, hd, hasCors, jsonError, corsHeaders]
        | some doc =>
          cases hf : (doc.filename == "") <;> cases blob <;> cases db <;>
            simp [save_response, hall, hd, hf, hasCors, jsonError, corsHeaders]
  · intro hok
    have hh := get_roles_ok_cors m jb resp hok
    simp [hasCors, hh, corsHeaders]
  · cases dbr <;> simp [get_saved_responses, hasCors, jsonError, corsHeaders]

/-! ### Claim C10 -/

/-- Claim C10: a GET request to GetRoles never parses the body; whatever
the body holds, the result is the success response with an empty roles
list. -/
theorem claim10_get_ignores_body (body : Option Json) :
    get_roles "GET" body = .ok (rolesResponse []) := rfl

end ComplaintApi
